import Mathlib

/-!
Verification of the randhaj image-catalog service.

This file gives a shallow embedding, in Lean 4, of the parts of the
repository that the checked properties talk about:

* `src/api/utils/image.py` — `ImageProcessor.calculate_scaled_size` and
  `ImageProcessor.resize`;
* `src/api/models.py` / `src/api/cache.py` — the two-table catalog store
  (`cached_image`, `image_metadata`), the query operations, the bulk
  delete used by the filesystem watcher, and one step of the watcher loop;
* `src/main.py` — the image-id suffix handling of `api_get_image`, the
  shared dimension-resolution rule of `get_file_response`, and the gallery
  pagination of `get_gallery_page_response`.

Modelling conventions:

* Python `str` values are modelled as `List Char` (`PyStr`); literals are
  written through `pystr`.
* Python `float` arithmetic is modelled as exact rational arithmetic on
  `ℚ`; Python `int()` is `pyInt`, truncation toward zero (`Int.tdiv` of
  numerator by denominator).  All quantities reaching `int()` in the code
  under scrutiny are nonnegative, where truncation agrees with `⌊·⌋`.
* Python falsiness of an optional integer argument (`if not width:`) holds
  exactly when the argument is `None` or `0`; an `Option Int` argument `w`
  is falsy iff `w.getD 0 = 0`.
* SQL result sets without an `ORDER BY` are returned in table (insertion)
  order; `ORDER BY id` is `List.insertionSort` under byte-lexicographic
  order (`lexLe`), matching SQLite's BINARY collation on these ASCII ids.

The file is organised as: all definitions first, then all theorems.
-/

/-- Python `int()` on an exact rational: truncation toward zero. -/
def pyInt (q : ℚ) : Int := Int.tdiv q.num (q.den : Int)

/-- A Python string, modelled as its list of characters. -/
abbrev PyStr := List Char

/-- Convert a Lean string literal to the `PyStr` model. -/
def pystr (s : String) : PyStr := s.data

/-- Python `s.rstrip(chars)`: remove every trailing character that belongs
to the set `chars` (note: `chars` is a set of characters, not a suffix). -/
def pyRstrip (s : PyStr) (chars : List Char) : PyStr :=
  (s.reverse.dropWhile (fun c => chars.contains c)).reverse

/-- Python `s.endswith(suffix)`. -/
def pyEndsWith (s suffix : PyStr) : Bool := suffix.isSuffixOf s

/-- Python `s.lower()` (ASCII case folding suffices for the filenames and
extensions involved). -/
def pyLower (s : PyStr) : PyStr := s.map Char.toLower

/-- The extension component of Python `os.path.splitext(p)[1]` for a plain
filename (no directory separators): the part of `p` from its last dot on,
except that a dot with only dots before it begins no extension. -/
def py_splitext_ext (p : PyStr) : PyStr :=
  let tail := p.reverse.takeWhile (fun c => c ≠ '.')
  if tail.length = p.length then []
  else
    let pre := p.take (p.length - tail.length - 1)
    if pre.any (fun c => c ≠ '.') then '.' :: tail.reverse else []

/-- Byte-lexicographic order on `PyStr` (SQLite BINARY collation on the
ASCII ids this catalog stores). -/
def lexLe : List Char → List Char → Bool
  | [], _ => true
  | _ :: _, [] => false
  | a :: as, b :: bs => if a < b then true else if b < a then false else lexLe as bs

namespace Constants

/-- `Constants.ALLOWED_DIMENSIONS` (src/api/constants.py). -/
def ALLOWED_DIMENSIONS : List Int := [2048, 1024, 512, 256, 128, 64, 32, 16]

/-- `Constants.DEFAULT_FORMAT`. -/
def DEFAULT_FORMAT : PyStr := pystr "jpeg"

/-- `Constants.DEFAULT_EXTENSION`. -/
def DEFAULT_EXTENSION : PyStr := pystr "jpg"

/-- `Constants.ALLOWED_INPUT_FILE_EXTENSIONS`. -/
def ALLOWED_INPUT_FILE_EXTENSIONS : List PyStr :=
  [pystr ".jpg", pystr ".jpeg", pystr ".png"]

/-- `Constants.get_max_width()` = `ALLOWED_DIMENSIONS[0]`. -/
def get_max_width : Int := 2048

/-- `Constants.get_small_thumbnail_width()` = `ALLOWED_DIMENSIONS[3]`. -/
def get_small_thumbnail_width : Int := 256

end Constants

namespace ImageProcessor

/-- `ImageProcessor.calculate_scaled_size` (src/api/utils/image.py, lines
51-70).  Python floats are modelled as exact rationals and `int()` as
`pyInt`.  A `width`/`height` of `none` or `some 0` is falsy. -/
def calculate_scaled_size (original_width original_height : Int)
    (width height : Option Int) : Int × Int :=
  if width.getD 0 = 0 ∧ height.getD 0 = 0 then
    (original_width, original_height)
  else
    let r : ℚ := (original_width : ℚ) / (original_height : ℚ)
    let w : Int := if width.getD 0 = 0 then pyInt ((height.getD 0 : ℚ) * r) else width.getD 0
    let h : Int := if height.getD 0 = 0 then pyInt ((w : ℚ) / r) else height.getD 0
    (w, h)

/-- A Pillow image: its size, an abstract pixel payload of type `α`, and a
declared format tag. -/
structure PILImage (α : Type) where
  width : Int
  height : Int
  data : α
  format : PyStr
  deriving DecidableEq

/-- `ImageProcessor.resize` (src/api/utils/image.py, lines 19-49).
`resample` models Pillow `Image.resize` (which returns a copy of exactly
the requested size, resampled with LANCZOS), and `thumb` models Pillow
`Image.thumbnail` used on the `legacy_mode` path; both are third-party
library behavior and are taken as parameters. -/
def resize {α : Type} (resample : α → Int → Int → α)
    (thumb : PILImage α → Int → Int → PILImage α)
    (image : PILImage α) (width height : Option Int)
    (keep_aspect : Bool) (legacy_mode : Bool) : PILImage α :=
  if width.getD 0 = 0 ∧ height.getD 0 = 0 then
    image
  else
    let wh : Int × Int :=
      if keep_aspect = true ∧ legacy_mode = false then
        calculate_scaled_size image.width image.height width none
      else if width.getD 0 = 0 ∧ ¬ height.getD 0 = 0 then
        (height.getD 0, height.getD 0)
      else if ¬ width.getD 0 = 0 ∧ height.getD 0 = 0 then
        (width.getD 0, width.getD 0)
      else
        (width.getD 0, height.getD 0)
    if legacy_mode then
      thumb image wh.1 wh.2
    else
      { width := wh.1, height := wh.2,
        data := resample image.data wh.1 wh.2, format := image.format }

end ImageProcessor

/-- `GeneralUtils.clamp`.  Modelled from the spec: src/api/utils/general.py
is not among the provided sources; §4.2 specifies that `clamp(value, min,
max)` returns `value` restricted to the closed interval `[min, max]`. -/
def GeneralUtils.clamp (value lo hi : Int) : Int := max lo (min value hi)

/-- `FilenameUtils.get_filename`.  Modelled from the spec:
src/api/utils/filename.py is not among the provided sources; §4.3
specifies a deterministic filename built from `(id, width, height,
format)`.  Width and height are optional because some call sites pass
`None`. -/
def FilenameUtils.get_filename (id : PyStr) (width height : Option Int)
    (format : PyStr) : PyStr :=
  let dim : Option Int → PyStr := fun d =>
    match d with
    | none => pystr "None"
    | some n => (toString n).data
  id ++ pystr "_" ++ dim width ++ pystr "x" ++ dim height ++ pystr "." ++ format

/-- A row of the `cached_image` table (src/api/models.py: `CachedImage`). -/
structure CachedImageRow where
  id : PyStr
  original_filename : PyStr
  deriving DecidableEq

/-- A row of the `image_metadata` table (src/api/models.py:
`ImageMetadata`).  The `extension` column exists in the model but is never
populated by the conversion pipeline, hence the `Option`. -/
structure MetadataRow where
  id : PyStr
  original_width : Int
  original_height : Int
  media_type : PyStr
  format : PyStr
  extension : Option PyStr
  deriving DecidableEq

/-- The committed contents of the SQLite store: the two tables, each as a
row list in insertion order. -/
structure DBState where
  cached_image : List CachedImageRow
  image_metadata : List MetadataRow
  deriving DecidableEq

/-- The invariant claimed by the data model: there is no metadata row
without an owning `cached_image` row of the same id. -/
def metadata_owned (s : DBState) : Prop :=
  ∀ m ∈ s.image_metadata, ∃ r ∈ s.cached_image, r.id = m.id

instance (s : DBState) : Decidable (metadata_owned s) := by
  unfold metadata_owned
  infer_instance

/-- The non-square target size computed by `Cache.get_filename`: scale via
`calculate_scaled_size` against the stored master dimensions, then clamp
each axis into `[0, masterDimension]`. -/
def scaled_clamped (md : MetadataRow) (width height : Option Int) : Int × Int :=
  let c := ImageProcessor.calculate_scaled_size md.original_width
    md.original_height width height
  (GeneralUtils.clamp c.1 0 md.original_width,
   GeneralUtils.clamp c.2 0 md.original_height)

namespace Cache

/-- `Cache.id_exists` (src/api/cache.py, lines 249-251):
`SELECT id FROM cached_image WHERE id IS ?`. -/
def id_exists (s : DBState) (id : PyStr) : Bool :=
  s.cached_image.any (fun r => r.id == id)

/-- `Cache.get_metadata` (src/api/cache.py, lines 245-247):
`SELECT * FROM image_metadata WHERE id IS ?`. -/
def get_metadata (s : DBState) (id : PyStr) : Option MetadataRow :=
  s.image_metadata.find? (fun r => r.id == id)

/-- `Cache.get_all_ids` (src/api/cache.py, lines 257-259):
`SELECT id FROM cached_image` — note: no ORDER BY, so the rows come back
in table (insertion) order. -/
def get_all_ids (s : DBState) : List PyStr :=
  s.cached_image.map (fun r => r.id)

/-- The ids in ascending lexical order, as produced by the queries that do
say `ORDER BY cached_image.id`. -/
def sorted_ids (s : DBState) : List PyStr :=
  List.insertionSort (fun a b => lexLe a b = true) (get_all_ids s)

/-- `Cache.get_first_id` (src/api/cache.py, lines 253-255):
`SELECT id FROM cached_image ORDER BY id LIMIT 1`. -/
def get_first_id (s : DBState) : Option PyStr :=
  (sorted_ids s).head?

/-- `Cache.get_ids_paged_with_offset` (src/api/cache.py, lines 266-275):
`SELECT id FROM cached_image ORDER BY id LIMIT page_size OFFSET offset`.
SQLite treats a negative OFFSET as 0 and a negative LIMIT as "no limit". -/
def get_ids_paged_with_offset (s : DBState) (offset page_size : Int) :
    List PyStr :=
  let l := (sorted_ids s).drop offset.toNat
  if page_size < 0 then l else l.take page_size.toNat

/-- `Cache.get_ids_paged` (src/api/cache.py, lines 261-264). -/
def get_ids_paged (s : DBState) (page page_size : Int) : List PyStr :=
  get_ids_paged_with_offset s (page * page_size) page_size

/-- `Cache.get_total_image_count` (src/api/cache.py, lines 292-294). -/
def get_total_image_count (s : DBState) : Int :=
  s.cached_image.length

/-- `Cache._delete_by_original_filename` (src/api/cache.py, lines
281-286), followed by `_commit_and_flush`.  The ORM-enabled bulk
`delete(CachedImage).where(...)` emits exactly
`DELETE FROM cached_image WHERE original_filename IS ?`: per the
SQLAlchemy documentation, `delete()` statements do not traverse
`relationship()` cascades (the `cascade="all, delete-orphan"` annotation
applies only to `session.delete(obj)`), no `ON DELETE CASCADE` is declared
on the `image_metadata.id` foreign key, and SQLite does not enforce
foreign keys by default — so only `cached_image` rows are removed and
`image_metadata` rows are left behind. -/
def _delete_by_original_filename (s : DBState) (fn : PyStr) : DBState :=
  { s with cached_image := s.cached_image.filter (fun r => r.original_filename != fn) }

/-- The `ValueError` message raised by `Cache.get_filename` on an unknown
id. -/
def not_found_msg : PyStr := pystr "cant find image by id"

/-- `Cache.get_filename` (src/api/cache.py, lines 184-239).  `fs` models
`os.path.isfile` over the cache directory.  An unknown id raises
`ValueError` (modelled as `.error`).  With `square`, the target height is
set to the target width; otherwise the target is `scaled_clamped`.  If the
expected variant file exists, or generation is suppressed, the expected
path is returned as-is; otherwise
`write_scaled_copy_from_source_filename_to_filesystem` writes the variant
and returns its path, which is built from the same `(id, width, height)`
and the master's format (the master file was saved with
`metadata.format`), i.e. the same name. -/
def get_filename (fs : PyStr → Bool) (s : DBState) (id : PyStr)
    (width height : Option Int) (square : Bool)
    (generate_variant_if_missing : Bool) : Except PyStr PyStr :=
  match get_metadata s id with
  | none => .error not_found_msg
  | some md =>
    let wh : Option Int × Option Int :=
      if square = true then (width, width)
      else (some (scaled_clamped md width height).1,
            some (scaled_clamped md width height).2)
    let expected := FilenameUtils.get_filename id wh.1 wh.2 md.format
    if fs expected = true ∨ generate_variant_if_missing = false then
      .ok expected
    else
      .ok (FilenameUtils.get_filename id wh.1 wh.2 md.format)

end Cache

/-- The state of the single shared SQLAlchemy session: the committed
database plus the new (CachedImage, ImageMetadata) object pairs added with
`session.add` but not yet flushed or committed. -/
structure SessionState where
  committed : DBState
  pending : List (CachedImageRow × MetadataRow)
  deriving DecidableEq

/-- Flushing the session writes every pending object pair into its table. -/
def flush (s : SessionState) : DBState :=
  { cached_image := s.committed.cached_image ++ s.pending.map (fun p => p.1),
    image_metadata := s.committed.image_metadata ++ s.pending.map (fun p => p.2) }

/-- The allowed-extension guard used by both the bulk generator and the
watcher: `os.path.splitext(filename.lower())[1]` must be one of
`ALLOWED_INPUT_FILE_EXTENSIONS`. -/
def allowed_input_ext (fn : PyStr) : Bool :=
  Constants.ALLOWED_INPUT_FILE_EXTENSIONS.contains (py_splitext_ext (pyLower fn))

/-- A filesystem event delivered to `Cache._watch_fs_events`:
IN_CLOSE_WRITE (file fully written) or IN_DELETE. -/
inductive FSEvent where
  | closeWrite (filename : PyStr)
  | delete (filename : PyStr)
  deriving DecidableEq

/-- One iteration of the event loop of `Cache._watch_fs_events`
(src/api/cache.py, lines 132-179).  `convert` models
`Image.open` + `ImageProcessor.convert_to_unified_format_and_write_to_filesystem`
(I/O and image decoding): `none` is an `OSError` (logged and skipped),
`some (id, md)` the returned id and metadata.  On IN_CLOSE_WRITE the new
`CachedImage` (with its metadata, linked by the relationship) is only
`session.add`-ed — the branch performs no commit.  On IN_DELETE,
`_delete_by_original_filename` runs: `session.execute` autoflushes the
pending inserts, then the bulk delete applies, then `_commit_and_flush`
commits. -/
def watch_step (convert : PyStr → Option (PyStr × MetadataRow))
    (s : SessionState) (ev : FSEvent) : SessionState :=
  match ev with
  | .closeWrite fn =>
    if allowed_input_ext fn = true then
      match convert fn with
      | none => s
      | some (id, md) =>
        { s with pending := s.pending ++
            [({ id := id, original_filename := fn }, { md with id := id })] }
    else s
  | .delete fn =>
    { committed := Cache._delete_by_original_filename (flush s) fn,
      pending := [] }

/-- An empty store. -/
def emptyDB : DBState := { cached_image := [], image_metadata := [] }

/-- Fixture for C2: one catalog entry with id "A" derived from source file
"a.jpg". -/
def c2_row : CachedImageRow := { id := pystr "A", original_filename := pystr "a.jpg" }

/-- Fixture for C2: the metadata row owned by entry "A". -/
def c2_md : MetadataRow :=
  { id := pystr "A", original_width := 10, original_height := 5,
    media_type := pystr "image/jpeg", format := pystr "jpeg", extension := none }

/-- Fixture for C2: the store holding exactly entry "A" and its metadata. -/
def c2_state : DBState := { cached_image := [c2_row], image_metadata := [c2_md] }

/-- Fixture for C3: metadata produced by the conversion pipeline for the
newly written file. -/
def c3_md : MetadataRow :=
  { id := pystr "N", original_width := 20, original_height := 10,
    media_type := pystr "image/jpeg", format := pystr "jpeg", extension := none }

/-- Fixture for C3: a conversion function that succeeds on every file,
returning id "N" and `c3_md`. -/
def c3_convert : PyStr → Option (PyStr × MetadataRow) := fun _ => some (pystr "N", c3_md)

/-- Fixture for C4: a store whose two entries were inserted in
non-alphabetical order ("b" before "a"). -/
def c4_state : DBState :=
  { cached_image := [{ id := pystr "b", original_filename := pystr "b.jpg" },
                     { id := pystr "a", original_filename := pystr "a.jpg" }],
    image_metadata := [] }

/-- The id resolution at the top of `api_get_image` (src/main.py, lines
493-501): if the path parameter ends with `"." + DEFAULT_EXTENSION`, the
code applies `image_id.rstrip(".jpg")` — Python `rstrip` with a character
set, not a suffix removal. -/
def resolve_image_id (s : PyStr) : PyStr :=
  if pyEndsWith s ('.' :: Constants.DEFAULT_EXTENSION) = true then
    pyRstrip s ('.' :: Constants.DEFAULT_EXTENSION)
  else s

/-- Outcome of `get_file_response`: an `HTTPException` with a status code,
or a served file. -/
inductive FileOutcome where
  | httpError (status : Nat)
  | file (filename : PyStr)
  deriving DecidableEq

/-- The first guard clause of `get_file_response` (src/main.py, lines
150-161): a truthy, non-allowed width with a falsy height derives the
height from the image's aspect ratio; `none` models the 400 raise when the
derived height is not allowed either. -/
def width_guard (md : MetadataRow) (w0 h0 : Option Int) :
    Option (Option Int × Option Int) :=
  if h0.getD 0 = 0 ∧ ¬ w0.getD 0 = 0 ∧
      w0.getD 0 ∉ Constants.ALLOWED_DIMENSIONS then
    if (ImageProcessor.calculate_scaled_size md.original_width
          md.original_height w0 none).2 ∉ Constants.ALLOWED_DIMENSIONS then
      none
    else
      some (w0, some (ImageProcessor.calculate_scaled_size md.original_width
        md.original_height w0 none).2)
  else some (w0, h0)

/-- The second, symmetric guard clause of `get_file_response` (src/main.py,
lines 162-173): a truthy, non-allowed height with a falsy width derives
the width. -/
def height_guard (md : MetadataRow) (w1 h1 : Option Int) :
    Option (Option Int × Option Int) :=
  if w1.getD 0 = 0 ∧ ¬ h1.getD 0 = 0 ∧
      h1.getD 0 ∉ Constants.ALLOWED_DIMENSIONS then
    if (ImageProcessor.calculate_scaled_size md.original_width
          md.original_height none h1).1 ∉ Constants.ALLOWED_DIMENSIONS then
      none
    else
      some (some (ImageProcessor.calculate_scaled_size md.original_width
        md.original_height none h1).1, h1)
  else some (w1, h1)

/-- The shared dimension-resolution rule: both guard clauses in sequence
(the Python code runs them as consecutive `if` statements; they are
mutually exclusive because each requires the axis the other rebinds to be
truthy resp. falsy). -/
def resolve_dims (md : MetadataRow) (w0 h0 : Option Int) :
    Option (Option Int × Option Int) :=
  (width_guard md w0 h0).bind (fun p => height_guard md p.1 p.2)

/-- `get_file_response` (src/main.py, lines 128-195).  Unknown id → 404.
With `square`, width defaults to the max width and height is forced to
width.  Then the two symmetric derivation guards run (`resolve_dims`),
after which `Cache.get_filename` resolves the file.  An exception escaping
the handler (e.g. `ValueError` from `get_filename`, or an absent metadata
row) surfaces as a 500. -/
def get_file_response (fs : PyStr → Bool) (s : DBState) (image_id : PyStr)
    (width height : Option Int) (square : Bool) : FileOutcome :=
  if Cache.id_exists s image_id = false then .httpError 404
  else
    match Cache.get_metadata s image_id with
    | none => .httpError 500
    | some md =>
      let w0 : Option Int :=
        if square = true then
          some (if width.getD 0 = 0 then Constants.get_max_width else width.getD 0)
        else width
      let h0 : Option Int := if square = true then w0 else height
      match resolve_dims md w0 h0 with
      | none => .httpError 400
      | some (w2, h2) =>
        match Cache.get_filename fs s image_id w2 h2 square true with
        | .error _ => .httpError 500
        | .ok fn => .file fn

/-- Outcome of `get_gallery_page_response`: an HTTP error status or a
rendered page of thumbnail ids. -/
inductive GalleryOutcome where
  | httpError (status : Nat)
  | page (ids : List PyStr)
  deriving DecidableEq

/-- `VIEW_PAGE_SIZE_LIMIT` (src/main.py, line 37). -/
def VIEW_PAGE_SIZE_LIMIT : Int := 50

/-- `get_gallery_page_response` (src/main.py, lines 286-332).  `page < 1`
and `page_size > 50` are rejected with 400; then
`page_max = count // page_size + 1` is computed with Python floor
division — which raises `ZeroDivisionError` for `page_size = 0`, an
unhandled exception surfacing as a 500; `page > page_max` is rejected with
400; otherwise the page of ids is rendered. -/
def get_gallery_page_response (s : DBState) (page page_size : Int) :
    GalleryOutcome :=
  if page < 1 then .httpError 400
  else if page_size > VIEW_PAGE_SIZE_LIMIT then .httpError 400
  else if page_size = 0 then .httpError 500
  else if page > Int.fdiv (Cache.get_total_image_count s) page_size + 1 then
    .httpError 400
  else .page (Cache.get_ids_paged s (page - 1) page_size)

/-- A cache directory on which no variant file exists yet. -/
def fs_none : PyStr → Bool := fun _ => false

/-- Fixture for C8: metadata of a 2048×1536 master with id "B". -/
def c8_md : MetadataRow :=
  { id := pystr "B", original_width := 2048, original_height := 1536,
    media_type := pystr "image/jpeg", format := pystr "jpeg", extension := none }

/-- Fixture for C8: the store holding entry "B" and its metadata. -/
def c8_state : DBState :=
  { cached_image := [{ id := pystr "B", original_filename := pystr "b.jpg" }],
    image_metadata := [c8_md] }

/-- Two-letter ascending ids for the 120-entry gallery fixture. -/
def mkId (k : Nat) : PyStr := [Char.ofNat (97 + k / 26), Char.ofNat (97 + k % 26)]

/-- Fixture for C7: a catalog of 120 entries with distinct ids already in
ascending order. -/
def db120 : DBState :=
  { cached_image := (List.range 120).map
      (fun k => { id := mkId k, original_filename := mkId k }),
    image_metadata := [] }

/- ------------------------------------------------------------------ -/
/- Theorems.                                                           -/
/- ------------------------------------------------------------------ -/

/-- On nonnegative rationals, Python truncation toward zero agrees with the
floor. -/
theorem pyInt_eq_floor (q : ℚ) (h : 0 ≤ q) : pyInt q = ⌊q⌋ := by
  rw [Rat.floor_def]
  exact Int.tdiv_eq_ediv (Rat.num_nonneg.mpr h) (by positivity)

theorem css_none (ow oh : Int) :
    ImageProcessor.calculate_scaled_size ow oh none none = (ow, oh) := rfl

theorem css_width_only (ow oh w : Int) (hw : w ≠ 0) :
    ImageProcessor.calculate_scaled_size ow oh (some w) none
      = (w, pyInt ((w : ℚ) / ((ow : ℚ) / (oh : ℚ)))) := by
  simp [ImageProcessor.calculate_scaled_size, hw]

theorem css_height_only (ow oh h : Int) (hh : h ≠ 0) :
    ImageProcessor.calculate_scaled_size ow oh none (some h)
      = (pyInt ((h : ℚ) * ((ow : ℚ) / (oh : ℚ))), h) := by
  simp [ImageProcessor.calculate_scaled_size, hh]

theorem css_both (ow oh w h : Int) (hw : w ≠ 0) (hh : h ≠ 0) :
    ImageProcessor.calculate_scaled_size ow oh (some w) (some h) = (w, h) := by
  simp [ImageProcessor.calculate_scaled_size, hw, hh]

theorem css_width_only_floor (ow oh w : Int) (how : 0 < ow) (hoh : 0 < oh)
    (hw : 0 < w) :
    ImageProcessor.calculate_scaled_size ow oh (some w) none
      = (w, ⌊(w : ℚ) / ((ow : ℚ) / (oh : ℚ))⌋) := by
  rw [css_width_only ow oh w (by omega)]
  rw [pyInt_eq_floor _ (by positivity)]

theorem css_height_only_floor (ow oh h : Int) (how : 0 < ow) (hoh : 0 < oh)
    (hh : 0 < h) :
    ImageProcessor.calculate_scaled_size ow oh none (some h)
      = (⌊(h : ℚ) * ((ow : ℚ) / (oh : ℚ))⌋, h) := by
  rw [css_height_only ow oh h (by omega)]
  rw [pyInt_eq_floor _ (by positivity)]

/-- Claim C1: `calculate_scaled_size` returns `(ow, oh)` when neither
dimension is given; `(w, floor(w / (ow/oh)))` when only `w` is given;
`(floor(h * (ow/oh)), h)` when only `h` is given; and is a pure
pass-through when both are given.  The integer conversion is Python
`int()`, truncation toward zero (`pyInt`), which on these nonnegative
values coincides with the floor.  The five literal width-only triples of
§8 and their symmetric height-only calls evaluate exactly as listed. -/
theorem claim_C1_calculate_scaled_size (ow oh w h : Int)
    (how : 1 ≤ ow) (hoh : 1 ≤ oh) (hw : 1 ≤ w) (hh : 1 ≤ h) :
    (ImageProcessor.calculate_scaled_size ow oh none none = (ow, oh)) ∧
    (ImageProcessor.calculate_scaled_size ow oh (some w) none
      = (w, ⌊(w : ℚ) / ((ow : ℚ) / (oh : ℚ))⌋)) ∧
    (ImageProcessor.calculate_scaled_size ow oh none (some h)
      = (⌊(h : ℚ) * ((ow : ℚ) / (oh : ℚ))⌋, h)) ∧
    (ImageProcessor.calculate_scaled_size ow oh (some w) (some h) = (w, h)) ∧
    (ImageProcessor.calculate_scaled_size 2048 1536 (some 512) none = (512, 384)) ∧
    (ImageProcessor.calculate_scaled_size 1536 2048 (some 384) none = (384, 512)) ∧
    (ImageProcessor.calculate_scaled_size 512 512 (some 256) none = (256, 256)) ∧
    (ImageProcessor.calculate_scaled_size 10 2 (some 5) none = (5, 1)) ∧
    (ImageProcessor.calculate_scaled_size 2 10 (some 1) none = (1, 5)) ∧
    (ImageProcessor.calculate_scaled_size 2048 1536 none (some 384) = (512, 384)) ∧
    (ImageProcessor.calculate_scaled_size 1536 2048 none (some 512) = (384, 512)) ∧
    (ImageProcessor.calculate_scaled_size 512 512 none (some 256) = (256, 256)) ∧
    (ImageProcessor.calculate_scaled_size 10 2 none (some 1) = (5, 1)) ∧
    (ImageProcessor.calculate_scaled_size 2 10 none (some 5) = (1, 5)) := by
  refine ⟨css_none ow oh,
    css_width_only_floor ow oh w (by omega) (by omega) (by omega),
    css_height_only_floor ow oh h (by omega) (by omega) (by omega),
    css_both ow oh w h (by omega) (by omega), ?_, ?_, ?_, ?_, ?_, ?_, ?_, ?_, ?_, ?_⟩
  all_goals first
  | (rw [css_width_only_floor _ _ _ (by norm_num) (by norm_num) (by norm_num)]
     norm_num)
  | (rw [css_height_only_floor _ _ _ (by norm_num) (by norm_num) (by norm_num)]
     norm_num)

/-- Witness for C1 at the concrete input `(ow, oh, w, h) = (3, 2, 5, 7)`;
`floor(5 / (3/2)) = 3` and `floor(7 * (3/2)) = 10`. -/
theorem claim_C1_witness :
    ImageProcessor.calculate_scaled_size 3 2 (some 5) none = (5, 3) ∧
    ImageProcessor.calculate_scaled_size 3 2 none (some 7) = (10, 7) := by
  have h := claim_C1_calculate_scaled_size 3 2 5 7 (by norm_num) (by norm_num)
    (by norm_num) (by norm_num)
  refine ⟨?_, ?_⟩
  · rw [h.2.1]; norm_num
  · rw [h.2.2.1]; norm_num

/-- Claim C9: a zero dimension is treated as an absent dimension:
`calculate_scaled_size` behaves on `some 0` exactly as on `none` in either
argument (hence `(0, 0)` returns the original size unchanged, and
`(0, h)` recomputes the width from `h` exactly as if width were absent,
symmetrically for `(w, 0)`), and `resize` with `width = 0, height = 0`
returns the input image unchanged, for any resampling behavior and any
flag values. -/
theorem claim_C9_zero_is_absent (ow oh : Int) (w h : Option Int)
    {α : Type} (resample : α → Int → Int → α)
    (thumb : ImageProcessor.PILImage α → Int → Int → ImageProcessor.PILImage α)
    (image : ImageProcessor.PILImage α) (keep_aspect legacy_mode : Bool) :
    (ImageProcessor.calculate_scaled_size ow oh (some 0) h
      = ImageProcessor.calculate_scaled_size ow oh none h) ∧
    (ImageProcessor.calculate_scaled_size ow oh w (some 0)
      = ImageProcessor.calculate_scaled_size ow oh w none) ∧
    (ImageProcessor.calculate_scaled_size ow oh (some 0) (some 0) = (ow, oh)) ∧
    (ImageProcessor.resize resample thumb image (some 0) (some 0)
      keep_aspect legacy_mode = image) := by
  refine ⟨?_, ?_, ?_, ?_⟩
  · simp [ImageProcessor.calculate_scaled_size]
  · simp [ImageProcessor.calculate_scaled_size]
  · simp [ImageProcessor.calculate_scaled_size]
  · simp [ImageProcessor.resize]

/-- Claim C10: with the defaults `keep_aspect_ratio = true` and
`legacy_mode = false`, a height-only `resize` call forwards only the
(absent) width to `calculate_scaled_size`, so the supplied height is
ignored and the result keeps the input's original dimensions; the
square-treatment branches are unreachable on this path. -/
theorem claim_C10_resize_height_only_is_noop {α : Type}
    (resample : α → Int → Int → α)
    (thumb : ImageProcessor.PILImage α → Int → Int → ImageProcessor.PILImage α)
    (image : ImageProcessor.PILImage α) (h : Int) (hh : 1 ≤ h) :
    (ImageProcessor.resize resample thumb image none (some h) true false).width
      = image.width ∧
    (ImageProcessor.resize resample thumb image none (some h) true false).height
      = image.height := by
  have hne : ¬ h = 0 := by omega
  constructor <;>
    simp [ImageProcessor.resize, hne, ImageProcessor.calculate_scaled_size]

/-- Witness for C10: a 4×3 image resized with only `height = 7` keeps its
4×3 size. -/
theorem claim_C10_witness :
    (ImageProcessor.resize (fun (d : Nat) _ _ => d) (fun i _ _ => i)
      { width := 4, height := 3, data := 0, format := pystr "jpeg" }
      none (some 7) true false).width = 4 ∧
    (ImageProcessor.resize (fun (d : Nat) _ _ => d) (fun i _ _ => i)
      { width := 4, height := 3, data := 0, format := pystr "jpeg" }
      none (some 7) true false).height = 3 :=
  claim_C10_resize_height_only_is_noop (fun (d : Nat) _ _ => d) (fun i _ _ => i)
    { width := 4, height := 3, data := 0, format := pystr "jpeg" } 7 (by norm_num)

/-- Claim C2 (code bug): deleting by original filename is supposed to
cascade, but the bulk `DELETE` only touches the `cached_image` table.  On
a store holding entry "A" (from "a.jpg") with its metadata, after the
delete-by-original-filename operation `id_exists "A"` is indeed false, yet
`get_metadata "A"` still returns the metadata row, and the "no metadata
without an owning entry" invariant — which held before — is violated. -/
theorem claim_C2_cascade_code_bug :
    Cache.id_exists (Cache._delete_by_original_filename c2_state (pystr "a.jpg"))
      (pystr "A") = false ∧
    Cache.get_metadata (Cache._delete_by_original_filename c2_state (pystr "a.jpg"))
      (pystr "A") = some c2_md ∧
    metadata_owned c2_state ∧
    ¬ metadata_owned (Cache._delete_by_original_filename c2_state (pystr "a.jpg")) := by
  refine ⟨by decide, by decide, by decide, by decide⟩

/-- Counterexample for C3: a successfully processed write-completion event
for the allowed file "new.png" leaves the committed store unchanged (the
insert sits uncommitted in the session), contradicting the claim that the
insert is committed immediately, one commit per watcher event. -/
theorem claim_C3_counterexample :
    (watch_step c3_convert { committed := emptyDB, pending := [] }
      (.closeWrite (pystr "new.png"))).committed = emptyDB ∧
    (watch_step c3_convert { committed := emptyDB, pending := [] }
      (.closeWrite (pystr "new.png"))).pending ≠ [] := by
  refine ⟨by decide, by decide⟩

/-- Claim C3, amended: only delete events are committed immediately (the
delete branch flushes any pending inserts, applies the bulk delete and
commits, leaving nothing pending); a successfully processed
write-completion event merely appends the new CatalogEntry+ImageMetadata
pair to the session's pending set and performs no commit, so the insert
becomes durable only at the next commit point (e.g. the next delete
event). -/
theorem claim_C3_watcher_commit_boundary
    (convert : PyStr → Option (PyStr × MetadataRow))
    (s : SessionState) (fn fnd : PyStr) (id : PyStr) (md : MetadataRow)
    (hext : allowed_input_ext fn = true) (hconv : convert fn = some (id, md)) :
    (watch_step convert s (.delete fnd)
      = { committed := Cache._delete_by_original_filename (flush s) fnd,
          pending := [] }) ∧
    ((watch_step convert s (.closeWrite fn)).committed = s.committed) ∧
    ((watch_step convert s (.closeWrite fn)).pending
      = s.pending ++ [({ id := id, original_filename := fn },
                       { md with id := id })]) := by
  refine ⟨rfl, ?_, ?_⟩ <;> simp [watch_step, hext, hconv]

/-- Witness for the amended C3 at a concrete session, write event
"new.png" and delete event "old.jpg". -/
theorem claim_C3_witness :
    (watch_step c3_convert { committed := c2_state, pending := [] }
      (.delete (pystr "old.jpg"))
      = { committed := Cache._delete_by_original_filename
            (flush { committed := c2_state, pending := [] }) (pystr "old.jpg"),
          pending := [] }) ∧
    ((watch_step c3_convert { committed := c2_state, pending := [] }
      (.closeWrite (pystr "new.png"))).committed = c2_state) ∧
    ((watch_step c3_convert { committed := c2_state, pending := [] }
      (.closeWrite (pystr "new.png"))).pending
      = [] ++ [({ id := pystr "N", original_filename := pystr "new.png" },
                { c3_md with id := pystr "N" })]) :=
  claim_C3_watcher_commit_boundary c3_convert
    { committed := c2_state, pending := [] } (pystr "new.png") (pystr "old.jpg")
    (pystr "N") c3_md (by decide) rfl

/-- Counterexample for C4: `get_all_ids` carries no ORDER BY; on a catalog
whose rows were inserted as "b" then "a" it returns `["b", "a"]`, which is
not in ascending lexical order. -/
theorem claim_C4_counterexample :
    Cache.get_all_ids c4_state = [pystr "b", pystr "a"] ∧
    ¬ List.Sorted (fun x y => lexLe x y = true) (Cache.get_all_ids c4_state) := by
  refine ⟨by decide, by decide⟩

/-- Claim C4, amended: `get_all_ids` returns exactly the stored ids — one
per catalog row, every stored id and nothing else — but in table
(insertion) order, with no ascending-order guarantee (its SELECT has no
ORDER BY; the ordered queries are `get_first_id` and the paged ones). -/
theorem claim_C4_get_all_ids (s : DBState) (id : PyStr) :
    (id ∈ Cache.get_all_ids s ↔ ∃ r ∈ s.cached_image, r.id = id) ∧
    (Cache.get_all_ids s).length = s.cached_image.length := by
  constructor
  · simp [Cache.get_all_ids, List.mem_map]
  · simp [Cache.get_all_ids]

/-- Claim C5 (code bug): `api_get_image` means to strip a trailing `".jpg"`
suffix, but uses Python `rstrip(".jpg")`, which removes *all* trailing
characters drawn from the set `{'.', 'j', 'p', 'g'}`.  On `"abcg.jpg"` the
resolved id is `"abc"`, not the `"abcg"` the claim requires (the trailing
`'g'` of the id is eaten); ids not ending in `".jpg"` are left unchanged,
and on a clean id like `"ab.jpg"` the behavior coincides with suffix
removal. -/
theorem claim_C5_suffix_code_bug :
    resolve_image_id (pystr "abcg.jpg") = pystr "abc" ∧
    resolve_image_id (pystr "abcg.jpg") ≠ pystr "abcg" ∧
    resolve_image_id (pystr "ab.jpg") = pystr "ab" ∧
    resolve_image_id (pystr "xg") = pystr "xg" ∧
    resolve_image_id (pystr "shark.png") = pystr "shark.png" := by
  refine ⟨by decide, by decide, by decide, by decide, by decide⟩

/-- Claim C6: for a known id, `Cache.get_filename` with `square = false`
computes the target size via `calculate_scaled_size` against the stored
master dimensions and clamps each axis into `[0, masterDimension]`
(`scaled_clamped`), so the returned filename names a variant no larger
than the master on either axis; an unknown id fails with the not-found
`ValueError` instead of returning a path. -/
theorem claim_C6_get_filename_clamps (fs : PyStr → Bool) (s : DBState)
    (id : PyStr) (width height : Option Int) (gen : Bool) (md : MetadataRow)
    (hmd : Cache.get_metadata s id = some md)
    (hw : 0 ≤ md.original_width) (hh : 0 ≤ md.original_height) :
    (Cache.get_filename fs s id width height false gen
      = .ok (FilenameUtils.get_filename id
          (some (scaled_clamped md width height).1)
          (some (scaled_clamped md width height).2) md.format)) ∧
    0 ≤ (scaled_clamped md width height).1 ∧
    (scaled_clamped md width height).1 ≤ md.original_width ∧
    0 ≤ (scaled_clamped md width height).2 ∧
    (scaled_clamped md width height).2 ≤ md.original_height ∧
    (∀ id2, Cache.get_metadata s id2 = none →
      Cache.get_filename fs s id2 width height false gen
        = .error Cache.not_found_msg) := by
  refine ⟨?_, ?_, ?_, ?_, ?_, ?_⟩
  · simp only [Cache.get_filename, hmd]
    split
    · simp_all
    · split <;> rfl
  · simp only [scaled_clamped, GeneralUtils.clamp]
    omega
  · simp only [scaled_clamped, GeneralUtils.clamp]
    omega
  · simp only [scaled_clamped, GeneralUtils.clamp]
    omega
  · simp only [scaled_clamped, GeneralUtils.clamp]
    omega
  · intro id2 h2
    simp [Cache.get_filename, h2]

/-- Witness for C6 on the store holding entry "A" with a 10×5 master:
`get_filename` for `width = 100` clamps the 100×50 target to 10×5, and an
unknown id "Z" yields the not-found error. -/
theorem claim_C6_witness :
    (Cache.get_filename fs_none c2_state (pystr "A") (some 100) none false true
      = .ok (FilenameUtils.get_filename (pystr "A") (some 10) (some 5)
          (pystr "jpeg"))) ∧
    (Cache.get_filename fs_none c2_state (pystr "Z") (some 100) none false true
      = .error Cache.not_found_msg) := by
  obtain ⟨hmain, -, -, -, -, hnf⟩ :=
    claim_C6_get_filename_clamps fs_none c2_state (pystr "A") (some 100) none
      true c2_md (by decide) (by decide) (by decide)
  have h1 : ImageProcessor.calculate_scaled_size 10 5 (some 100) none
      = (100, 50) := by
    rw [css_width_only 10 5 100 (by norm_num)]
    rw [pyInt_eq_floor _ (by positivity)]
    norm_num
  have h2 : scaled_clamped c2_md (some 100) none = (10, 5) := by
    simp only [scaled_clamped, c2_md, h1, GeneralUtils.clamp]
    decide
  refine ⟨?_, hnf (pystr "Z") (by decide)⟩
  rw [hmain, h2]
  rfl

/-- Counterexample for C7: `pageSize = 0` passes both validations
(`page ≥ 1`, `pageSize ≤ 50`) but the claim's "otherwise pageMax = n //
pageSize + 1 is computed" step raises `ZeroDivisionError`, an unhandled
exception surfacing as a 500 — neither a 400 validation outcome nor a
successful page. -/
theorem claim_C7_counterexample :
    get_gallery_page_response c4_state 1 0 = .httpError 500 := by
  decide

/-- Claim C7, amended: `page < 1` and `pageSize > 50` yield 400; for
`pageSize ≠ 0`, `pageMax = n // pageSize + 1` (Python floor division) is
computed and `page > pageMax` yields 400; any `page ∈ [1, pageMax]` with
`1 ≤ pageSize ≤ 50` succeeds and renders at most `pageSize` thumbnail ids
(`pageSize = 0` instead raises `ZeroDivisionError`, a 500). -/
theorem claim_C7_gallery_paging (s : DBState) (page page_size : Int) :
    (page < 1 → get_gallery_page_response s page page_size = .httpError 400) ∧
    (1 ≤ page → 50 < page_size →
      get_gallery_page_response s page page_size = .httpError 400) ∧
    (1 ≤ page → page_size ≤ 50 → page_size ≠ 0 →
      Int.fdiv (Cache.get_total_image_count s) page_size + 1 < page →
      get_gallery_page_response s page page_size = .httpError 400) ∧
    (1 ≤ page → 1 ≤ page_size → page_size ≤ 50 →
      page ≤ Int.fdiv (Cache.get_total_image_count s) page_size + 1 →
      get_gallery_page_response s page page_size
        = .page (Cache.get_ids_paged s (page - 1) page_size) ∧
      (Cache.get_ids_paged s (page - 1) page_size).length ≤ page_size.toNat) := by
  unfold get_gallery_page_response VIEW_PAGE_SIZE_LIMIT
  refine ⟨?_, ?_, ?_, ?_⟩
  · intro hp
    rw [if_pos hp]
  · intro h1 h2
    rw [if_neg (by omega), if_pos h2]
  · intro h1 h2 h3 h4
    rw [if_neg (by omega), if_neg (by omega), if_neg h3, if_pos h4]
  · intro h1 h2 h3 h4
    rw [if_neg (by omega), if_neg (by omega), if_neg (by omega),
      if_neg (by omega)]
    refine ⟨rfl, ?_⟩
    simp only [Cache.get_ids_paged, Cache.get_ids_paged_with_offset]
    rw [if_neg (by omega)]
    exact List.length_take_le _ _

/-- Witness for C7 on a 120-entry catalog with `pageSize = 50`:
`pageMax = 120 // 50 + 1 = 3`, `page = 4` is rejected with 400, and
`page = 3` succeeds with exactly the remaining 20 ids. -/
theorem claim_C7_witness :
    get_gallery_page_response db120 4 50 = .httpError 400 ∧
    get_gallery_page_response db120 3 50
      = .page (Cache.get_ids_paged db120 (3 - 1) 50) ∧
    (Cache.get_ids_paged db120 (3 - 1) 50).length = 20 := by
  have hcount : Cache.get_total_image_count db120 = 120 := by decide
  refine ⟨(claim_C7_gallery_paging db120 4 50).2.2.1 (by norm_num) (by norm_num)
    (by norm_num) (by rw [hcount]; decide), ?_, ?_⟩
  · exact ((claim_C7_gallery_paging db120 3 50).2.2.2 (by norm_num) (by norm_num)
      (by norm_num) (by rw [hcount]; decide)).1
  · decide

/-- For a known id, `Cache.get_filename` always returns a path (both the
probe branch and the generate branch end in a filename). -/
theorem get_filename_ok (fs : PyStr → Bool) (s : DBState) (id : PyStr)
    (width height : Option Int) (square gen : Bool) (md : MetadataRow)
    (hmd : Cache.get_metadata s id = some md) :
    ∃ fn, Cache.get_filename fs s id width height square gen = .ok fn := by
  simp only [Cache.get_filename, hmd]
  repeat' split
  all_goals exact ⟨_, rfl⟩

/-- Reduction of `get_file_response` for a known id with `square = false`:
the outcome is determined by `resolve_dims` and then `get_filename`. -/
theorem gfr_nonsquare (fs : PyStr → Bool) (s : DBState) (image_id : PyStr)
    (width height : Option Int) (md : MetadataRow)
    (hex : Cache.id_exists s image_id = true)
    (hmd : Cache.get_metadata s image_id = some md) :
    get_file_response fs s image_id width height false =
      match resolve_dims md width height with
      | none => .httpError 400
      | some (w2, h2) =>
        match Cache.get_filename fs s image_id w2 h2 false true with
        | .error _ => .httpError 500
        | .ok fn => .file fn := by
  simp only [get_file_response, hmd]
  rw [if_neg (by simp [hex])]
  rfl

/-- `get_file_response` reduction when the dimension guards accept. -/
theorem gfr_resolve_some (fs : PyStr → Bool) (s : DBState) (image_id : PyStr)
    (width height : Option Int) (md : MetadataRow) (w2 h2 : Option Int)
    (hex : Cache.id_exists s image_id = true)
    (hmd : Cache.get_metadata s image_id = some md)
    (hres : resolve_dims md width height = some (w2, h2)) :
    get_file_response fs s image_id width height false =
      match Cache.get_filename fs s image_id w2 h2 false true with
      | .error _ => .httpError 500
      | .ok fn => .file fn := by
  rw [gfr_nonsquare fs s image_id width height md hex hmd, hres]

/-- `get_file_response` reduction when the dimension guards reject. -/
theorem gfr_resolve_none (fs : PyStr → Bool) (s : DBState) (image_id : PyStr)
    (width height : Option Int) (md : MetadataRow)
    (hex : Cache.id_exists s image_id = true)
    (hmd : Cache.get_metadata s image_id = some md)
    (hres : resolve_dims md width height = none) :
    get_file_response fs s image_id width height false = .httpError 400 := by
  rw [gfr_nonsquare fs s image_id width height md hex hmd, hres]

/-- Claim C8: shared dimension-resolution rule with `square = false` on a
known image: a supplied width that is one of the 8 allowed dimensions
always succeeds; a supplied non-allowed width succeeds iff the height
derived via `calculate_scaled_size` is allowed, and yields 400 otherwise;
symmetrically for a supplied height. -/
theorem claim_C8_dimension_rule (fs : PyStr → Bool) (s : DBState)
    (id : PyStr) (md : MetadataRow) (w h : Int)
    (hex : Cache.id_exists s id = true)
    (hmd : Cache.get_metadata s id = some md)
    (hw : 1 ≤ w) (hh : 1 ≤ h) :
    (w ∈ Constants.ALLOWED_DIMENSIONS →
      ∃ fn, get_file_response fs s id (some w) none false = .file fn) ∧
    (w ∉ Constants.ALLOWED_DIMENSIONS →
      ((ImageProcessor.calculate_scaled_size md.original_width
          md.original_height (some w) none).2 ∈ Constants.ALLOWED_DIMENSIONS →
        ∃ fn, get_file_response fs s id (some w) none false = .file fn) ∧
      ((ImageProcessor.calculate_scaled_size md.original_width
          md.original_height (some w) none).2 ∉ Constants.ALLOWED_DIMENSIONS →
        get_file_response fs s id (some w) none false = .httpError 400)) ∧
    (h ∈ Constants.ALLOWED_DIMENSIONS →
      ∃ fn, get_file_response fs s id none (some h) false = .file fn) ∧
    (h ∉ Constants.ALLOWED_DIMENSIONS →
      ((ImageProcessor.calculate_scaled_size md.original_width
          md.original_height none (some h)).1 ∈ Constants.ALLOWED_DIMENSIONS →
        ∃ fn, get_file_response fs s id none (some h) false = .file fn) ∧
      ((ImageProcessor.calculate_scaled_size md.original_width
          md.original_height none (some h)).1 ∉ Constants.ALLOWED_DIMENSIONS →
        get_file_response fs s id none (some h) false = .httpError 400)) := by
  have hw0 : ¬ w = 0 := by omega
  have hh0 : ¬ h = 0 := by omega
  refine ⟨?_, ?_, ?_, ?_⟩
  · intro hmem
    have hg : resolve_dims md (some w) none = some (some w, none) := by
      simp [resolve_dims, width_guard, height_guard, hmem]
    obtain ⟨fn, hfn⟩ := get_filename_ok fs s id (some w) none false true md hmd
    rw [gfr_resolve_some fs s id (some w) none md (some w) none hex hmd hg, hfn]
    exact ⟨fn, rfl⟩
  · intro hnmem
    constructor
    · intro hdmem
      have hg : resolve_dims md (some w) none
          = some (some w, some (ImageProcessor.calculate_scaled_size
              md.original_width md.original_height (some w) none).2) := by
        simp [resolve_dims, width_guard, height_guard, hw0, hnmem, hdmem]
      obtain ⟨fn, hfn⟩ := get_filename_ok fs s id (some w)
        (some (ImageProcessor.calculate_scaled_size md.original_width
          md.original_height (some w) none).2) false true md hmd
      rw [gfr_resolve_some fs s id (some w) none md (some w)
        (some (ImageProcessor.calculate_scaled_size md.original_width
          md.original_height (some w) none).2) hex hmd hg, hfn]
      exact ⟨fn, rfl⟩
    · intro hdnmem
      have hg : resolve_dims md (some w) none = none := by
        simp [resolve_dims, width_guard, hw0, hnmem, hdnmem]
      exact gfr_resolve_none fs s id (some w) none md hex hmd hg
  · intro hmem
    have hg : resolve_dims md none (some h) = some (none, some h) := by
      simp [resolve_dims, width_guard, height_guard, hh0, hmem]
    obtain ⟨fn, hfn⟩ := get_filename_ok fs s id none (some h) false true md hmd
    rw [gfr_resolve_some fs s id none (some h) md none (some h) hex hmd hg, hfn]
    exact ⟨fn, rfl⟩
  · intro hnmem
    constructor
    · intro hdmem
      have hg : resolve_dims md none (some h)
          = some (some (ImageProcessor.calculate_scaled_size
              md.original_width md.original_height none (some h)).1, some h) := by
        simp [resolve_dims, width_guard, height_guard, hh0, hnmem, hdmem]
      obtain ⟨fn, hfn⟩ := get_filename_ok fs s id
        (some (ImageProcessor.calculate_scaled_size md.original_width
          md.original_height none (some h)).1) (some h) false true md hmd
      rw [gfr_resolve_some fs s id none (some h) md
        (some (ImageProcessor.calculate_scaled_size md.original_width
          md.original_height none (some h)).1) (some h) hex hmd hg, hfn]
      exact ⟨fn, rfl⟩
    · intro hdnmem
      have hg : resolve_dims md none (some h) = none := by
        simp [resolve_dims, width_guard, height_guard, hh0, hnmem, hdnmem]
      exact gfr_resolve_none fs s id none (some h) md hex hmd hg

/-- Witness for C8 on a 2048×1536 master: the allowed width 512 and the
allowed height 256 succeed; width 999 derives height 749 ∉ allowed → 400;
height 999 derives width 1332 ∉ allowed → 400. -/
theorem claim_C8_witness :
    (∃ fn, get_file_response fs_none c8_state (pystr "B") (some 512) none false
      = .file fn) ∧
    (get_file_response fs_none c8_state (pystr "B") (some 999) none false
      = .httpError 400) ∧
    (get_file_response fs_none c8_state (pystr "B") none (some 999) false
      = .httpError 400) ∧
    (∃ fn, get_file_response fs_none c8_state (pystr "B") none (some 256) false
      = .file fn) := by
  have e1 : ImageProcessor.calculate_scaled_size 2048 1536 (some 999) none
      = (999, 749) := by
    rw [css_width_only 2048 1536 999 (by norm_num)]
    rw [pyInt_eq_floor _ (by positivity)]
    norm_num
  have e2 : ImageProcessor.calculate_scaled_size 2048 1536 none (some 999)
      = (1332, 999) := by
    rw [css_height_only 2048 1536 999 (by norm_num)]
    rw [pyInt_eq_floor _ (by positivity)]
    norm_num
  have H1 := claim_C8_dimension_rule fs_none c8_state (pystr "B") c8_md 512 256
    (by decide) (by decide) (by norm_num) (by norm_num)
  have H2 := claim_C8_dimension_rule fs_none c8_state (pystr "B") c8_md 999 999
    (by decide) (by decide) (by norm_num) (by norm_num)
  refine ⟨H1.1 (by decide), ?_, ?_, H1.2.2.1 (by decide)⟩
  · refine (H2.2.1 (by decide)).2 ?_
    rw [show c8_md.original_width = 2048 from rfl,
      show c8_md.original_height = 1536 from rfl, e1]
    decide
  · refine (H2.2.2.2 (by decide)).2 ?_
    rw [show c8_md.original_width = 2048 from rfl,
      show c8_md.original_height = 1536 from rfl, e2]
    decide
